import Mathlib

/-!
Verification development for the memristive-biosensor catalog service
(`backend/main.py`) and its combinatorial compatibility-synthesis core.

The four inbound create schemas (`AnalyteCreate`, `BioRecognitionCreate`,
`ImmobilizationCreate`, `MemristiveCreate`) and the HTTP endpoint wiring are
embedded directly from `backend/main.py`.  The synthesis engine
(CompatibilityEvaluator, SynthesisOrchestrator, CombinationStore,
AnalyticsAggregator) lives in service modules that are not part of the
available source tree; those parts are modelled from the specification and
are marked as such in their doc comments.

Floats are modelled as rationals (ℚ) and Python ints as ℤ; field names keep
the source's names.
-/

namespace MemBiosensors

/-- Character class `[A-Z0-9_-]` of the id patterns in `backend/main.py`. -/
def idChar (c : Char) : Bool :=
  c.isUpper || c.isDigit || c == '_' || c == '-'

/-- The id pattern `^FAM[A-Z0-9_-]{1,20}$` used by the four create models
(`fam` is the family marker `TA` / `BRE` / `IM` / `MEM`). -/
def idPattern (fam : String) (s : String) : Bool :=
  fam.data.isPrefixOf s.data &&
  (let rest := s.data.drop fam.data.length
   decide (1 ≤ rest.length) && decide (rest.length ≤ 20) && rest.all idChar)

/-- Length bounds `min_length=3, max_length=255` on the name fields. -/
def namePattern (s : String) : Bool :=
  decide (3 ≤ s.data.length) && decide (s.data.length ≤ 255)

/-- `AnalyteCreate` from `backend/main.py` (lines 77-85). -/
structure AnalyteCreate where
  ta_id : String
  ta_name : String
  ph_min : ℚ
  ph_max : ℚ
  t_max : ℤ
  stability : ℤ
  half_life : ℤ
  power_consumption : ℤ
deriving DecidableEq, Repr

/-- Pydantic field validation of `AnalyteCreate` (`backend/main.py` 77-85):
each `Field(..., ge=…, le=…)` bound and the two string patterns. -/
def AnalyteCreate.valid (a : AnalyteCreate) : Bool :=
  idPattern ("TA") a.ta_id && namePattern a.ta_name &&
  decide (2 ≤ a.ph_min) && decide (a.ph_min ≤ 10) &&
  decide (2 ≤ a.ph_max) && decide (a.ph_max ≤ 10) &&
  decide (0 ≤ a.t_max) && decide (a.t_max ≤ 180) &&
  decide (0 ≤ a.stability) && decide (a.stability ≤ 365) &&
  decide (0 ≤ a.half_life) && decide (a.half_life ≤ 8760) &&
  decide (0 ≤ a.power_consumption) && decide (a.power_consumption ≤ 1000)

/-- `BioRecognitionCreate` from `backend/main.py` (lines 88-103). -/
structure BioRecognitionCreate where
  bre_id : String
  bre_name : String
  ph_min : ℚ
  ph_max : ℚ
  t_min : ℤ
  t_max : ℤ
  dr_min : ℚ
  dr_max : ℚ
  sensitivity : ℤ
  reproducibility : ℤ
  response_time : ℤ
  stability : ℤ
  lod : ℤ
  durability : ℤ
  power_consumption : ℤ
deriving DecidableEq, Repr

/-- Pydantic field validation of `BioRecognitionCreate` (`backend/main.py` 88-103). -/
def BioRecognitionCreate.valid (b : BioRecognitionCreate) : Bool :=
  idPattern ("BRE") b.bre_id && namePattern b.bre_name &&
  decide (2 ≤ b.ph_min) && decide (b.ph_min ≤ 10) &&
  decide (2 ≤ b.ph_max) && decide (b.ph_max ≤ 10) &&
  decide (4 ≤ b.t_min) && decide (b.t_min ≤ 120) &&
  decide (4 ≤ b.t_max) && decide (b.t_max ≤ 120) &&
  decide (mkRat 1 10 ≤ b.dr_min) && decide (b.dr_min ≤ 1000000000000) &&
  decide (mkRat 1 10 ≤ b.dr_max) && decide (b.dr_max ≤ 1000000000000) &&
  decide (0 ≤ b.sensitivity) && decide (b.sensitivity ≤ 20000) &&
  decide (0 ≤ b.reproducibility) && decide (b.reproducibility ≤ 100) &&
  decide (0 ≤ b.response_time) && decide (b.response_time ≤ 3600) &&
  decide (0 ≤ b.stability) && decide (b.stability ≤ 365) &&
  decide (0 ≤ b.lod) && decide (b.lod ≤ 50000) &&
  decide (0 ≤ b.durability) && decide (b.durability ≤ 8760) &&
  decide (0 ≤ b.power_consumption) && decide (b.power_consumption ≤ 1000)

/-- `ImmobilizationCreate` from `backend/main.py` (lines 106-121). -/
structure ImmobilizationCreate where
  im_id : String
  im_name : String
  ph_min : ℚ
  ph_max : ℚ
  t_min : ℤ
  t_max : ℤ
  young_modulus : ℤ
  adhesion : String
  solubility : String
  loss_coefficient : ℚ
  reproducibility : ℤ
  response_time : ℤ
  stability : ℤ
  durability : ℤ
  power_consumption : ℤ
deriving DecidableEq, Repr

/-- Pydantic field validation of `ImmobilizationCreate` (`backend/main.py`
106-121), including the categorical patterns
`^(слабая|хорошая|отличная)$` and `^(водорастворимый|органический|нерастворимый)$`. -/
def ImmobilizationCreate.valid (i : ImmobilizationCreate) : Bool :=
  idPattern ("IM") i.im_id && namePattern i.im_name &&
  decide (2 ≤ i.ph_min) && decide (i.ph_min ≤ 10) &&
  decide (2 ≤ i.ph_max) && decide (i.ph_max ≤ 10) &&
  decide (4 ≤ i.t_min) && decide (i.t_min ≤ 120) &&
  decide (4 ≤ i.t_max) && decide (i.t_max ≤ 120) &&
  decide (0 ≤ i.young_modulus) && decide (i.young_modulus ≤ 1000) &&
  (i.adhesion == "слабая" || i.adhesion == "хорошая" || i.adhesion == "отличная") &&
  (i.solubility == "водорастворимый" || i.solubility == "органический" ||
    i.solubility == "нерастворимый") &&
  decide (0 ≤ i.loss_coefficient) && decide (i.loss_coefficient ≤ 1) &&
  decide (0 ≤ i.reproducibility) && decide (i.reproducibility ≤ 100) &&
  decide (0 ≤ i.response_time) && decide (i.response_time ≤ 3600) &&
  decide (0 ≤ i.stability) && decide (i.stability ≤ 365) &&
  decide (0 ≤ i.durability) && decide (i.durability ≤ 8760) &&
  decide (0 ≤ i.power_consumption) && decide (i.power_consumption ≤ 1000)

/-- `MemristiveCreate` from `backend/main.py` (lines 124-140). -/
structure MemristiveCreate where
  mem_id : String
  mem_name : String
  ph_min : ℚ
  ph_max : ℚ
  t_min : ℤ
  t_max : ℤ
  dr_min : ℚ
  dr_max : ℚ
  young_modulus : ℤ
  sensitivity : ℤ
  reproducibility : ℤ
  response_time : ℤ
  stability : ℤ
  lod : ℤ
  durability : ℤ
  power_consumption : ℤ
deriving DecidableEq, Repr

/-- Pydantic field validation of `MemristiveCreate` (`backend/main.py` 124-140). -/
def MemristiveCreate.valid (m : MemristiveCreate) : Bool :=
  idPattern ("MEM") m.mem_id && namePattern m.mem_name &&
  decide (2 ≤ m.ph_min) && decide (m.ph_min ≤ 10) &&
  decide (2 ≤ m.ph_max) && decide (m.ph_max ≤ 10) &&
  decide (5 ≤ m.t_min) && decide (m.t_min ≤ 120) &&
  decide (5 ≤ m.t_max) && decide (m.t_max ≤ 120) &&
  decide (mkRat 1 10000000 ≤ m.dr_min) && decide (m.dr_min ≤ 100000000000) &&
  decide (mkRat 1 10000000 ≤ m.dr_max) && decide (m.dr_max ≤ 100000000000) &&
  decide (0 ≤ m.young_modulus) && decide (m.young_modulus ≤ 1000) &&
  decide (0 ≤ m.sensitivity) && decide (m.sensitivity ≤ 20000) &&
  decide (0 ≤ m.reproducibility) && decide (m.reproducibility ≤ 100) &&
  decide (0 ≤ m.response_time) && decide (m.response_time ≤ 3600) &&
  decide (0 ≤ m.stability) && decide (m.stability ≤ 365) &&
  decide (0 ≤ m.lod) && decide (m.lod ≤ 50000) &&
  decide (0 ≤ m.durability) && decide (m.durability ≤ 8760) &&
  decide (0 ≤ m.power_consumption) && decide (m.power_consumption ≤ 1000)

/-- Modelled from the spec: the domain component records consumed by the
core (`domain.models` is not in the available tree) carry the same typed
fields as the create schemas above, validated upstream (§6); we reuse the
create records as the component records. -/
abbrev Analyte := AnalyteCreate

/-- Modelled from the spec: see `Analyte`. -/
abbrev BioRecognitionLayer := BioRecognitionCreate

/-- Modelled from the spec: see `Analyte`. -/
abbrev ImmobilizationLayer := ImmobilizationCreate

/-- Modelled from the spec: see `Analyte`. -/
abbrev MemristiveLayer := MemristiveCreate

/-- Modelled from the spec (§4.2 step 1, pH dimension): the pH range is
present on all four components; `lo = max(all mins)`, `hi = min(all maxes)`,
accept iff `lo ≤ hi`. -/
def phOk (a : Analyte) (b : BioRecognitionLayer) (i : ImmobilizationLayer)
    (m : MemristiveLayer) : Bool :=
  decide (max (max a.ph_min b.ph_min) (max i.ph_min m.ph_min) ≤
          min (min a.ph_max b.ph_max) (min i.ph_max m.ph_max))

/-- Modelled from the spec (§4.2 step 1, temperature dimension, with §3):
bre/im/mem contribute full ranges `[t_min, t_max]`; the analyte carries a
single `t_max` upper bound instead of a range (§3), so it contributes only
to the min of the maxes. -/
def tempOk (a : Analyte) (b : BioRecognitionLayer) (i : ImmobilizationLayer)
    (m : MemristiveLayer) : Bool :=
  decide (max b.t_min (max i.t_min m.t_min) ≤
          min (min b.t_max (min i.t_max m.t_max)) a.t_max)

/-- Modelled from the spec (§4.2 step 1, dynamic-range dimension): present
only on bre and mem; analyte and immobilization are excluded from this
intersection. -/
def drOk (b : BioRecognitionLayer) (m : MemristiveLayer) : Bool :=
  decide (max b.dr_min m.dr_min ≤ min b.dr_max m.dr_max)

/-- Modelled from the spec (§4.2 step 2, categorical rule):
`solubility = water-soluble` (`водорастворимый`) combined with
`adhesion = weak` (`слабая`) is rejected. -/
def categoricalOk (i : ImmobilizationLayer) : Bool :=
  !(i.solubility == "водорастворимый" && i.adhesion == "слабая")

/-- Modelled from the spec (§4.2): the pure CompatibilityEvaluator predicate
`isCompatible(analyte, bre, im, mem)`; all dimension intersections must be
non-empty and the categorical rule must not be violated. -/
def isCompatible (a : Analyte) (b : BioRecognitionLayer)
    (i : ImmobilizationLayer) (m : MemristiveLayer) : Bool :=
  phOk a b i m && tempOk a b i m && drOk b m && categoricalOk i

/-- Modelled from the spec (§2, §4.1): the four component catalogs, each in
the CatalogReader's stable listing order. -/
structure Catalogs where
  analytes : List Analyte
  bres : List BioRecognitionLayer
  ims : List ImmobilizationLayer
  mems : List MemristiveLayer

/-- A candidate quadruple (glossary: one component from each catalog). -/
abbrev Candidate := Analyte × BioRecognitionLayer × ImmobilizationLayer × MemristiveLayer

/-- Modelled from the spec (§4.4): the deterministic nested enumeration
order — analytes outermost, then bre, then im, then mem. -/
def Catalogs.candidates (cat : Catalogs) : List Candidate :=
  cat.analytes.flatMap fun a =>
    cat.bres.flatMap fun b =>
      cat.ims.flatMap fun i =>
        cat.mems.map fun m => (a, b, i, m)

/-- Size of the full cross-product `|A|×|B|×|I|×|M|`. -/
def Catalogs.crossSize (cat : Catalogs) : ℕ :=
  cat.analytes.length * cat.bres.length * cat.ims.length * cat.mems.length

/-- Modelled from the spec (§3): a persisted SensorCombination — the
quadruple of component ids plus the derived score. -/
structure SensorCombination where
  analyte_id : String
  bre_id : String
  im_id : String
  mem_id : String
  score : ℚ
deriving DecidableEq, Repr

/-- The composite key of a persisted combination (§3: the quadruple of ids
is the primary key). -/
def SensorCombination.key (c : SensorCombination) : String × String × String × String :=
  (c.analyte_id, c.bre_id, c.im_id, c.mem_id)

/-- Whether a stored combination has exactly the id-key of the candidate
`(a, b, i, m)`. -/
def SensorCombination.matches (c : SensorCombination) (a : Analyte)
    (b : BioRecognitionLayer) (i : ImmobilizationLayer) (m : MemristiveLayer) : Bool :=
  c.analyte_id == a.ta_id && c.bre_id == b.bre_id &&
  c.im_id == i.im_id && c.mem_id == m.mem_id

/-- Modelled from the spec (§2, §4.4): the CombinationStore is the persisted
set of accepted combinations; `hasKey` is the duplicate check on the id-key. -/
def hasKey (store : List SensorCombination) (a : Analyte)
    (b : BioRecognitionLayer) (i : ImmobilizationLayer) (m : MemristiveLayer) : Bool :=
  store.any fun c => c.matches a b i m

/-- The scoring function is kept abstract: the spec (§4.3, §9) leaves the
exact weight set unspecified, and no claim below depends on score values. -/
abbrev ScoreFn := Analyte → BioRecognitionLayer → ImmobilizationLayer → MemristiveLayer → ℚ

/-- The mutable state threaded through one synthesis run: the store and the
two work-done counters. -/
structure SynthState where
  store : List SensorCombination
  checked : ℕ
  created : ℕ

/-- Modelled from the spec (§4.4): the orchestrator loop.  The remaining
budget is `fuel = maxChecked - checked`; for each candidate: increment
`checked`; skip if the id-key already exists; otherwise evaluate
compatibility, and on success score, insert, and increment `created`. -/
def synthLoop (sc : ScoreFn) : List Candidate → ℕ → SynthState → SynthState
  | [], _, s => s
  | _ :: _, 0, s => s
  | (a, b, i, m) :: rest, fuel + 1, s =>
    let s1 : SynthState := { s with checked := s.checked + 1 }
    if hasKey s1.store a b i m then
      synthLoop sc rest fuel s1
    else if isCompatible a b i m then
      synthLoop sc rest fuel
        { s1 with
          store := s1.store ++ [⟨a.ta_id, b.bre_id, i.im_id, m.mem_id, sc a b i m⟩],
          created := s1.created + 1 }
    else
      synthLoop sc rest fuel s1

/-- Modelled from the spec (§4.4): `synthesize(maxChecked)` over the current
catalogs and store, returning the final store and the `(checked, created)`
counters. -/
def synthesize (sc : ScoreFn) (cat : Catalogs) (maxChecked : ℕ)
    (store : List SensorCombination) : SynthState :=
  synthLoop sc cat.candidates maxChecked ⟨store, 0, 0⟩

/-- A sequence of synthesize operations, each with its own catalogs and
budget, folded over the store (§4.4: repeated invocations grow the store). -/
def runSynth (sc : ScoreFn) : List (Catalogs × ℕ) → List SensorCombination → List SensorCombination
  | [], st => st
  | (cat, n) :: rest, st => runSynth sc rest (synthesize sc cat n st).store

/-- Catalog growth (§3: catalogs are append-mostly): every component of
`c` is still present in `d`. -/
def Catalogs.Sub (c d : Catalogs) : Prop :=
  c.analytes ⊆ d.analytes ∧ c.bres ⊆ d.bres ∧ c.ims ⊆ d.ims ∧ c.mems ⊆ d.mems

/-- The range-intersection invariant for one persisted combination (§3, §8):
its four referenced components exist in the catalogs, the pH, temperature
and dynamic-range intersections are non-empty, and the categorical rule is
not violated. -/
def CombinationOk (cat : Catalogs) (c : SensorCombination) : Prop :=
  ∃ a ∈ cat.analytes, ∃ b ∈ cat.bres, ∃ i ∈ cat.ims, ∃ m ∈ cat.mems,
    a.ta_id = c.analyte_id ∧ b.bre_id = c.bre_id ∧ i.im_id = c.im_id ∧
    m.mem_id = c.mem_id ∧ phOk a b i m = true ∧ tempOk a b i m = true ∧
    drOk b m = true ∧ categoricalOk i = true

/-- The range-intersection invariant over the whole store (§8). -/
def RangeInv (cat : Catalogs) (store : List SensorCombination) : Prop :=
  ∀ c ∈ store, CombinationOk cat c

/-- The uniqueness invariant (§3, §8): no two persisted combinations share
the same id-key quadruple. -/
def UniqueKeys (store : List SensorCombination) : Prop :=
  store.Pairwise fun c d => c.key ≠ d.key

/-- Mean of a list of rationals; the mean of no values is reported as 0
(§7: analytics over an empty store return zeroed results, never an error). -/
def meanQ (l : List ℚ) : ℚ :=
  if l.length = 0 then 0 else l.sum / l.length

/-- Modelled from the spec (§4.5): the aggregate statistics record —
counts per catalog kind, total combination count, mean score. -/
structure Statistics where
  analyte_count : ℕ
  bre_count : ℕ
  im_count : ℕ
  mem_count : ℕ
  combination_count : ℕ
  mean_score : ℚ
deriving DecidableEq, Repr

/-- Modelled from the spec (§4.5): `statistics()` of the
AnalyticsAggregator (`services/analytics_service.py` is not in the tree). -/
def getStatistics (cat : Catalogs) (store : List SensorCombination) : Statistics :=
  ⟨cat.analytes.length, cat.bres.length, cat.ims.length, cat.mems.length,
   store.length, meanQ (store.map (·.score))⟩

/-- Lexicographic ascending order on the combination id-key, the
deterministic tie-break of `bestCombinations` (§4.5). -/
def keyLtb (c d : SensorCombination) : Bool :=
  decide (c.analyte_id < d.analyte_id) ||
  (c.analyte_id == d.analyte_id &&
    (decide (c.bre_id < d.bre_id) ||
     (c.bre_id == d.bre_id &&
       (decide (c.im_id < d.im_id) ||
        (c.im_id == d.im_id && decide (c.mem_id < d.mem_id))))))

/-- `c` sorts before `d`: score descending, id-key ascending on ties (§4.5). -/
def combBefore (c d : SensorCombination) : Bool :=
  decide (d.score < c.score) || (decide (c.score = d.score) && keyLtb c d)

/-- Insertion step of the deterministic sort used by `bestCombinations`. -/
def insertComb (c : SensorCombination) : List SensorCombination → List SensorCombination
  | [] => [c]
  | d :: rest => if combBefore c d then c :: d :: rest else d :: insertComb c rest

/-- Insertion sort of combinations by `combBefore`. -/
def sortCombs : List SensorCombination → List SensorCombination
  | [] => []
  | c :: rest => insertComb c (sortCombs rest)

/-- Modelled from the spec (§4.5): `bestCombinations(limit)` — top-N by
score descending, ties broken by combination id ascending. -/
def bestCombinations (limit : ℕ) (store : List SensorCombination) : List SensorCombination :=
  (sortCombs store).take limit

/-- Analytes referenced by at least one persisted combination (§4.5). -/
def referencedAnalytes (cat : Catalogs) (store : List SensorCombination) : List Analyte :=
  cat.analytes.filter fun a => store.any fun c => c.analyte_id == a.ta_id

/-- Bio-recognition layers referenced by at least one persisted combination. -/
def referencedBres (cat : Catalogs) (store : List SensorCombination) : List BioRecognitionLayer :=
  cat.bres.filter fun b => store.any fun c => c.bre_id == b.bre_id

/-- Immobilization layers referenced by at least one persisted combination. -/
def referencedIms (cat : Catalogs) (store : List SensorCombination) : List ImmobilizationLayer :=
  cat.ims.filter fun i => store.any fun c => c.im_id == i.im_id

/-- Memristive layers referenced by at least one persisted combination. -/
def referencedMems (cat : Catalogs) (store : List SensorCombination) : List MemristiveLayer :=
  cat.mems.filter fun m => store.any fun c => c.mem_id == m.mem_id

/-- Modelled from the spec (§4.5): per-catalog-kind aggregate metrics over
the components referenced by at least one persisted combination. -/
structure Comparative where
  analyte_mean_stability : ℚ
  bre_mean_sensitivity : ℚ
  im_mean_loss_coefficient : ℚ
  mem_mean_sensitivity : ℚ
deriving DecidableEq, Repr

/-- Modelled from the spec (§4.5): `comparativeAnalysis()` — read-only,
derived from CombinationStore and CatalogReader. -/
def getComparativeAnalysis (cat : Catalogs) (store : List SensorCombination) : Comparative :=
  ⟨meanQ ((referencedAnalytes cat store).map fun a => (a.stability : ℚ)),
   meanQ ((referencedBres cat store).map fun b => (b.sensitivity : ℚ)),
   meanQ ((referencedIms cat store).map fun i => i.loss_coefficient),
   meanQ ((referencedMems cat store).map fun m => (m.sensitivity : ℚ))⟩

/-- The JSON body returned by `POST /api/combinations/synthesize`
(`backend/main.py` 312-325). -/
structure SynthesizeResponse where
  success : Bool
  checked : ℕ
  created : ℕ
  message : String
deriving Repr

/-- The `POST /api/combinations/synthesize` endpoint (`backend/main.py`
312-325): FastAPI validates `max_combinations : int = Query(10000, ge=1,
le=50000)` at the boundary (modelled as `Except.error`), then returns the
service's `(checked, created)` pair in the response body. -/
def synthesizeEndpoint (sc : ScoreFn) (cat : Catalogs)
    (store : List SensorCombination) (max_combinations : Option ℤ) :
    Except String SynthesizeResponse :=
  let n := max_combinations.getD 10000
  if 1 ≤ n ∧ n ≤ 50000 then
    let r := synthesize sc cat n.toNat store
    Except.ok ⟨true, r.checked, r.created,
      "✅ Checked " ++ toString r.checked ++ " possible combinations, created " ++
        toString r.created ++ " new ones"⟩
  else
    Except.error "max_combinations must satisfy 1 <= N <= 50000"

/-- A sample analyte used by witnesses. -/
def sampleAnalyte : AnalyteCreate := ⟨"TAX", "abc", 3, 8, 40, 10, 10, 10⟩

/-- A sample bio-recognition layer used by witnesses. -/
def sampleBre : BioRecognitionCreate :=
  ⟨"BREX", "abc", 3, 8, 10, 60, 1, 100, 5, 5, 5, 5, 5, 5, 5⟩

/-- A sample immobilization layer used by witnesses. -/
def sampleIm : ImmobilizationCreate :=
  ⟨"IMX", "abc", 3, 8, 10, 60, 5, "хорошая", "органический", 0, 5, 5, 5, 5, 5⟩

/-- A sample memristive layer used by witnesses. -/
def sampleMem : MemristiveCreate :=
  ⟨"MEMX", "abc", 3, 8, 10, 60, 1, 100, 5, 5, 5, 5, 5, 5, 5, 5⟩

/-- A sample one-component-per-kind catalog state used by witnesses. -/
def sampleCatalogs : Catalogs := ⟨[sampleAnalyte], [sampleBre], [sampleIm], [sampleMem]⟩

/-- A sample scoring function used by witnesses. -/
def sampleScore : ScoreFn := fun _ _ _ _ => 0

/-- An analyte with `ph_min > ph_max`, both inside `[2, 10]`. -/
def invertedAnalyte : AnalyteCreate := ⟨"TAX", "abc", 9, 3, 40, 10, 10, 10⟩

/-- A bio-recognition layer with `ph_min > ph_max`, `t_min > t_max` and
`dr_min > dr_max`, all within the per-field bounds. -/
def invertedBre : BioRecognitionCreate :=
  ⟨"BREX", "abc", 9, 3, 100, 4, 2, 1, 5, 5, 5, 5, 5, 5, 5⟩

/-- An immobilization layer with `ph_min > ph_max` and `t_min > t_max`,
all within the per-field bounds. -/
def invertedIm : ImmobilizationCreate :=
  ⟨"IMX", "abc", 9, 3, 100, 4, 5, "хорошая", "органический", 0, 5, 5, 5, 5, 5⟩

/-- A memristive layer with `ph_min > ph_max`, `t_min > t_max` and
`dr_min > dr_max`, all within the per-field bounds. -/
def invertedMem : MemristiveCreate :=
  ⟨"MEMX", "abc", 9, 3, 100, 5, 2, 1, 5, 5, 5, 5, 5, 5, 5, 5⟩

/-- Claim C7: every create model bounds both `ph_min` and `ph_max` to the
closed interval `[2, 10]`; a payload with a pH field outside that interval
fails validation. -/
theorem create_models_ph_bounds :
    (∀ a : AnalyteCreate, a.valid = true →
      2 ≤ a.ph_min ∧ a.ph_min ≤ 10 ∧ 2 ≤ a.ph_max ∧ a.ph_max ≤ 10) ∧
    (∀ b : BioRecognitionCreate, b.valid = true →
      2 ≤ b.ph_min ∧ b.ph_min ≤ 10 ∧ 2 ≤ b.ph_max ∧ b.ph_max ≤ 10) ∧
    (∀ i : ImmobilizationCreate, i.valid = true →
      2 ≤ i.ph_min ∧ i.ph_min ≤ 10 ∧ 2 ≤ i.ph_max ∧ i.ph_max ≤ 10) ∧
    (∀ m : MemristiveCreate, m.valid = true →
      2 ≤ m.ph_min ∧ m.ph_min ≤ 10 ∧ 2 ≤ m.ph_max ∧ m.ph_max ≤ 10) := by
  refine ⟨?_, ?_, ?_, ?_⟩ <;> intro x h <;>
    simp only [AnalyteCreate.valid, BioRecognitionCreate.valid,
      ImmobilizationCreate.valid, MemristiveCreate.valid, Bool.and_eq_true,
      decide_eq_true_eq] at h <;>
    tauto

/-- Witness for C7: a concrete valid payload of each kind, with the pH
bounds obtained from `create_models_ph_bounds`. -/
theorem create_models_ph_bounds_witness :
    sampleAnalyte.valid = true ∧ sampleBre.valid = true ∧
    sampleIm.valid = true ∧ sampleMem.valid = true ∧
    (2 ≤ sampleAnalyte.ph_min ∧ sampleAnalyte.ph_min ≤ 10 ∧
      2 ≤ sampleAnalyte.ph_max ∧ sampleAnalyte.ph_max ≤ 10) ∧
    (2 ≤ sampleBre.ph_min ∧ sampleBre.ph_min ≤ 10 ∧
      2 ≤ sampleBre.ph_max ∧ sampleBre.ph_max ≤ 10) ∧
    (2 ≤ sampleIm.ph_min ∧ sampleIm.ph_min ≤ 10 ∧
      2 ≤ sampleIm.ph_max ∧ sampleIm.ph_max ≤ 10) ∧
    (2 ≤ sampleMem.ph_min ∧ sampleMem.ph_min ≤ 10 ∧
      2 ≤ sampleMem.ph_max ∧ sampleMem.ph_max ≤ 10) :=
  ⟨by decide, by decide, by decide, by decide,
   create_models_ph_bounds.1 sampleAnalyte (by decide),
   create_models_ph_bounds.2.1 sampleBre (by decide),
   create_models_ph_bounds.2.2.1 sampleIm (by decide),
   create_models_ph_bounds.2.2.2 sampleMem (by decide)⟩

/-- Claim C8: the dimension shape of the four component records — each
record is fully determined by exactly the listed fields: all four carry
`ph_min`/`ph_max`; bre/im/mem carry `t_min`/`t_max` while the analyte
carries only a single `t_max` (no `t_min`); exactly bre and mem carry
`dr_min`/`dr_max`. -/
theorem component_dimension_shape :
    (∀ a a' : AnalyteCreate, a.ta_id = a'.ta_id → a.ta_name = a'.ta_name →
      a.ph_min = a'.ph_min → a.ph_max = a'.ph_max → a.t_max = a'.t_max →
      a.stability = a'.stability → a.half_life = a'.half_life →
      a.power_consumption = a'.power_consumption → a = a') ∧
    (∀ b b' : BioRecognitionCreate, b.bre_id = b'.bre_id → b.bre_name = b'.bre_name →
      b.ph_min = b'.ph_min → b.ph_max = b'.ph_max → b.t_min = b'.t_min →
      b.t_max = b'.t_max → b.dr_min = b'.dr_min → b.dr_max = b'.dr_max →
      b.sensitivity = b'.sensitivity → b.reproducibility = b'.reproducibility →
      b.response_time = b'.response_time → b.stability = b'.stability →
      b.lod = b'.lod → b.durability = b'.durability →
      b.power_consumption = b'.power_consumption → b = b') ∧
    (∀ i i' : ImmobilizationCreate, i.im_id = i'.im_id → i.im_name = i'.im_name →
      i.ph_min = i'.ph_min → i.ph_max = i'.ph_max → i.t_min = i'.t_min →
      i.t_max = i'.t_max → i.young_modulus = i'.young_modulus →
      i.adhesion = i'.adhesion → i.solubility = i'.solubility →
      i.loss_coefficient = i'.loss_coefficient →
      i.reproducibility = i'.reproducibility → i.response_time = i'.response_time →
      i.stability = i'.stability → i.durability = i'.durability →
      i.power_consumption = i'.power_consumption → i = i') ∧
    (∀ m m' : MemristiveCreate, m.mem_id = m'.mem_id → m.mem_name = m'.mem_name →
      m.ph_min = m'.ph_min → m.ph_max = m'.ph_max → m.t_min = m'.t_min →
      m.t_max = m'.t_max → m.dr_min = m'.dr_min → m.dr_max = m'.dr_max →
      m.young_modulus = m'.young_modulus → m.sensitivity = m'.sensitivity →
      m.reproducibility = m'.reproducibility → m.response_time = m'.response_time →
      m.stability = m'.stability → m.lod = m'.lod → m.durability = m'.durability →
      m.power_consumption = m'.power_consumption → m = m') := by
  refine ⟨?_, ?_, ?_, ?_⟩ <;> intro x x' <;> cases x <;> cases x' <;>
    intros <;> simp_all

/-- Witness for C8: the extensionality properties applied at concrete
records. -/
theorem component_dimension_shape_witness :
    sampleAnalyte = sampleAnalyte ∧ sampleBre = sampleBre ∧
    sampleIm = sampleIm ∧ sampleMem = sampleMem :=
  ⟨component_dimension_shape.1 sampleAnalyte sampleAnalyte
      rfl rfl rfl rfl rfl rfl rfl rfl,
   component_dimension_shape.2.1 sampleBre sampleBre
      rfl rfl rfl rfl rfl rfl rfl rfl rfl rfl rfl rfl rfl rfl rfl,
   component_dimension_shape.2.2.1 sampleIm sampleIm
      rfl rfl rfl rfl rfl rfl rfl rfl rfl rfl rfl rfl rfl rfl rfl,
   component_dimension_shape.2.2.2 sampleMem sampleMem
      rfl rfl rfl rfl rfl rfl rfl rfl rfl rfl rfl rfl rfl rfl rfl rfl⟩

/-- Claim C10: boundary validation never relates a range's minimum to its
maximum — concrete payloads with `ph_min = 9 > 3 = ph_max` (analyte), and
with inverted `t_min`/`t_max` and `dr_min`/`dr_max` pairs on the other
three models, all pass validation. -/
theorem create_models_accept_inverted_ranges :
    (invertedAnalyte.ph_min = 9 ∧ invertedAnalyte.ph_max = 3 ∧
      invertedAnalyte.valid = true) ∧
    (invertedBre.ph_max < invertedBre.ph_min ∧ invertedBre.t_max < invertedBre.t_min ∧
      invertedBre.dr_max < invertedBre.dr_min ∧ invertedBre.valid = true) ∧
    (invertedIm.ph_max < invertedIm.ph_min ∧ invertedIm.t_max < invertedIm.t_min ∧
      invertedIm.valid = true) ∧
    (invertedMem.ph_max < invertedMem.ph_min ∧ invertedMem.t_max < invertedMem.t_min ∧
      invertedMem.dr_max < invertedMem.dr_min ∧ invertedMem.valid = true) := by
  decide

/-- Claim C4: `isCompatible` returns `false` iff some dimension's
intersection is empty — pH over all four, temperature over bre/im/mem with
the analyte's `t_max` as an extra upper bound, dynamic range over bre/mem —
i.e. `max(all defined mins) > min(all defined maxes)` for that dimension,
or the immobilization layer is water-soluble with weak adhesion.
Components missing a dimension simply do not appear in that dimension's
intersection, and degenerate `min = max` ranges intersect normally. -/
theorem isCompatible_eq_false_iff (a : Analyte) (b : BioRecognitionLayer)
    (i : ImmobilizationLayer) (m : MemristiveLayer) :
    isCompatible a b i m = false ↔
      min (min a.ph_max b.ph_max) (min i.ph_max m.ph_max) <
        max (max a.ph_min b.ph_min) (max i.ph_min m.ph_min) ∨
      min (min b.t_max (min i.t_max m.t_max)) a.t_max <
        max b.t_min (max i.t_min m.t_min) ∨
      min b.dr_max m.dr_max < max b.dr_min m.dr_min ∨
      (i.solubility = "водорастворимый" ∧ i.adhesion = "слабая") := by
  simp only [isCompatible, phOk, tempOk, drOk, categoricalOk,
    Bool.and_eq_false_iff, decide_eq_false_iff_not, not_le,
    Bool.not_eq_false', Bool.and_eq_true, beq_iff_eq]
  tauto

/-- The loop checks at most `fuel` candidates. -/
theorem synthLoop_checked_le_fuel (sc : ScoreFn) :
    ∀ (cs : List Candidate) (fuel : ℕ) (s : SynthState),
      (synthLoop sc cs fuel s).checked ≤ s.checked + fuel := by
  intro cs
  induction cs with
  | nil => intro fuel s; simp [synthLoop]
  | cons c rest ih =>
    intro fuel s
    cases fuel with
    | zero => simp [synthLoop]
    | succ f =>
      obtain ⟨a, b, i, m⟩ := c
      simp only [synthLoop]
      split
      · exact (ih f _).trans (by simp; omega)
      · split
        · exact (ih f _).trans (by simp; omega)
        · exact (ih f _).trans (by simp; omega)

/-- The loop checks at most as many candidates as remain. -/
theorem synthLoop_checked_le_length (sc : ScoreFn) :
    ∀ (cs : List Candidate) (fuel : ℕ) (s : SynthState),
      (synthLoop sc cs fuel s).checked ≤ s.checked + cs.length := by
  intro cs
  induction cs with
  | nil => intro fuel s; simp [synthLoop]
  | cons c rest ih =>
    intro fuel s
    cases fuel with
    | zero => simp [synthLoop]
    | succ f =>
      obtain ⟨a, b, i, m⟩ := c
      simp only [synthLoop, List.length_cons]
      split
      · exact (ih f _).trans (by simp; omega)
      · split
        · exact (ih f _).trans (by simp; omega)
        · exact (ih f _).trans (by simp; omega)

/-- The nested enumeration produces exactly the full cross-product. -/
theorem length_candidates (cat : Catalogs) :
    cat.candidates.length = cat.crossSize := by
  simp only [Catalogs.candidates, Catalogs.crossSize, List.length_flatMap,
    Function.comp_def, List.length_map, List.map_const', List.sum_replicate, smul_eq_mul]
  ring

/-- Claim C5: for every call, `checked ≤ min(N, |A|×|B|×|I|×|M|)` — the
enumeration stops at the budget or at exhaustion of the cross-product,
whichever comes first. -/
theorem synthesize_checked_bound (sc : ScoreFn) (cat : Catalogs) (N : ℕ)
    (store : List SensorCombination) :
    (synthesize sc cat N store).checked ≤
      min N (cat.analytes.length * cat.bres.length * cat.ims.length * cat.mems.length) := by
  have h1 : (synthesize sc cat N store).checked ≤ 0 + N :=
    synthLoop_checked_le_fuel sc cat.candidates N ⟨store, 0, 0⟩
  have h2 : (synthesize sc cat N store).checked ≤ 0 + cat.candidates.length :=
    synthLoop_checked_le_length sc cat.candidates N ⟨store, 0, 0⟩
  have h3 := length_candidates cat
  simp only [Catalogs.crossSize] at h3
  omega

/-- Every combination already in the store survives the loop. -/
theorem synthLoop_store_mono (sc : ScoreFn) :
    ∀ (cs : List Candidate) (fuel : ℕ) (s : SynthState) (c : SensorCombination),
      c ∈ s.store → c ∈ (synthLoop sc cs fuel s).store := by
  intro cs
  induction cs with
  | nil => intro fuel s c hc; simpa [synthLoop] using hc
  | cons cand rest ih =>
    intro fuel s c hc
    cases fuel with
    | zero => simpa [synthLoop] using hc
    | succ f =>
      obtain ⟨a, b, i, m⟩ := cand
      simp only [synthLoop]
      split
      · exact ih f _ c hc
      · split
        · exact ih f _ c (List.mem_append_left _ hc)
        · exact ih f _ c hc

/-- A key present in the store stays present through the loop. -/
theorem synthLoop_hasKey_mono (sc : ScoreFn) (cs : List Candidate) (fuel : ℕ)
    (s : SynthState) (a : Analyte) (b : BioRecognitionLayer)
    (i : ImmobilizationLayer) (m : MemristiveLayer)
    (h : hasKey s.store a b i m = true) :
    hasKey (synthLoop sc cs fuel s).store a b i m = true := by
  simp only [hasKey, List.any_eq_true] at h ⊢
  obtain ⟨c, hc, hm⟩ := h
  exact ⟨c, synthLoop_store_mono sc cs fuel s c hc, hm⟩

/-- The freshly inserted row matches its own candidate's key. -/
theorem matches_mk (a : Analyte) (b : BioRecognitionLayer)
    (i : ImmobilizationLayer) (m : MemristiveLayer) (q : ℚ) :
    SensorCombination.matches ⟨a.ta_id, b.bre_id, i.im_id, m.mem_id, q⟩ a b i m = true := by
  simp [SensorCombination.matches]

/-- After a full-budget pass, every compatible candidate's key is in the
store (it was either already there or has just been inserted). -/
theorem synthLoop_covers (sc : ScoreFn) :
    ∀ (cs : List Candidate) (fuel : ℕ) (s : SynthState), cs.length ≤ fuel →
      ∀ a b i m, (a, b, i, m) ∈ cs → isCompatible a b i m = true →
        hasKey (synthLoop sc cs fuel s).store a b i m = true := by
  intro cs
  induction cs with
  | nil => intro fuel s _ a b i m h; simp at h
  | cons cand rest ih =>
    intro fuel s hlen a b i m hmem hcomp
    cases fuel with
    | zero => simp at hlen
    | succ f =>
      obtain ⟨a0, b0, i0, m0⟩ := cand
      have hlen' : rest.length ≤ f := by
        simpa [List.length_cons] using hlen
      rcases List.mem_cons.mp hmem with heq | htail
      · simp only [Prod.mk.injEq] at heq
        obtain ⟨rfl, rfl, rfl, rfl⟩ := heq
        simp only [synthLoop]
        split
        · rename_i hk
          exact synthLoop_hasKey_mono sc rest f _ a b i m hk
        · apply synthLoop_hasKey_mono
          simp only [hasKey, List.any_eq_true]
          exact ⟨_, List.mem_append_right _ (List.mem_singleton_self _), matches_mk a b i m _⟩
      · simp only [synthLoop]
        split
        · exact ih f _ hlen' a b i m htail hcomp
        · split
          · exact ih f _ hlen' a b i m htail hcomp
          · exact ih f _ hlen' a b i m htail hcomp

/-- If every compatible candidate's key is already stored, the loop creates
nothing and leaves the store unchanged. -/
theorem synthLoop_no_create (sc : ScoreFn) :
    ∀ (cs : List Candidate) (fuel : ℕ) (s : SynthState),
      (∀ a b i m, (a, b, i, m) ∈ cs → isCompatible a b i m = true →
        hasKey s.store a b i m = true) →
      (synthLoop sc cs fuel s).created = s.created ∧
        (synthLoop sc cs fuel s).store = s.store := by
  intro cs
  induction cs with
  | nil => intro fuel s _; simp [synthLoop]
  | cons cand rest ih =>
    intro fuel s h
    cases fuel with
    | zero => simp [synthLoop]
    | succ f =>
      obtain ⟨a0, b0, i0, m0⟩ := cand
      simp only [synthLoop]
      split
      · exact ih f _ fun a b i m hm hc => h a b i m (List.mem_cons_of_mem _ hm) hc
      · rename_i hk
        split
        · rename_i hc
          exact absurd (h a0 b0 i0 m0 (List.mem_cons_self _ _) hc) hk
        · exact ih f _ fun a b i m hm hc => h a b i m (List.mem_cons_of_mem _ hm) hc

/-- Claim C3: with unchanged catalogs and a budget at least the full
cross-product size, a second `synthesize` call creates nothing — all
compatible quadruples are already persisted. -/
theorem synthesize_idempotent (sc : ScoreFn) (cat : Catalogs) (N : ℕ)
    (store : List SensorCombination) (hN : cat.crossSize ≤ N) :
    (synthesize sc cat N (synthesize sc cat N store).store).created = 0 := by
  have hlen : cat.candidates.length ≤ N := by
    rw [length_candidates]; exact hN
  have hcov : ∀ a b i m, (a, b, i, m) ∈ cat.candidates →
      isCompatible a b i m = true →
      hasKey (synthesize sc cat N store).store a b i m = true :=
    fun a b i m hm hc => synthLoop_covers sc cat.candidates N ⟨store, 0, 0⟩ hlen a b i m hm hc
  exact (synthLoop_no_create sc cat.candidates N
    ⟨(synthesize sc cat N store).store, 0, 0⟩ hcov).1

/-- Witness for C3: a concrete 1×1×1×1 catalog state, budget 2 ≥ 1; the
second call creates 0. -/
theorem synthesize_idempotent_witness :
    sampleCatalogs.crossSize ≤ 2 ∧
    (synthesize sampleScore sampleCatalogs 2
      (synthesize sampleScore sampleCatalogs 2 []).store).created = 0 :=
  ⟨by decide, synthesize_idempotent sampleScore sampleCatalogs 2 [] (by decide)⟩

/-- Inserting a key that is not yet present keeps the keys pairwise
distinct. -/
theorem uniqueKeys_insert (store : List SensorCombination) (a : Analyte)
    (b : BioRecognitionLayer) (i : ImmobilizationLayer) (m : MemristiveLayer)
    (q : ℚ) (h : UniqueKeys store) (hk : ¬ hasKey store a b i m = true) :
    UniqueKeys (store ++ [⟨a.ta_id, b.bre_id, i.im_id, m.mem_id, q⟩]) := by
  rw [UniqueKeys, List.pairwise_append]
  refine ⟨h, List.pairwise_singleton _ _, ?_⟩
  intro c hc d hd
  simp only [List.mem_singleton] at hd
  subst hd
  simp only [hasKey, List.any_eq_true, not_exists] at hk
  intro heq
  simp only [SensorCombination.key, Prod.mk.injEq] at heq
  exact hk c ⟨hc, by
    simp only [SensorCombination.matches, Bool.and_eq_true, beq_iff_eq]
    tauto⟩

/-- The loop preserves pairwise-distinct keys. -/
theorem synthLoop_unique (sc : ScoreFn) :
    ∀ (cs : List Candidate) (fuel : ℕ) (s : SynthState),
      UniqueKeys s.store → UniqueKeys (synthLoop sc cs fuel s).store := by
  intro cs
  induction cs with
  | nil => intro fuel s h; simpa [synthLoop] using h
  | cons cand rest ih =>
    intro fuel s h
    cases fuel with
    | zero => simpa [synthLoop] using h
    | succ f =>
      obtain ⟨a, b, i, m⟩ := cand
      simp only [synthLoop]
      split
      · exact ih f _ h
      · rename_i hk
        split
        · exact ih f _ (uniqueKeys_insert s.store a b i m _ h hk)
        · exact ih f _ h

/-- Claim C2: the id-key quadruple is a primary key — `synthesize`
preserves key uniqueness, and every store reachable from the empty store by
a sequence of synthesize operations has pairwise-distinct keys. -/
theorem combination_store_unique_keys (sc : ScoreFn) :
    (∀ (cat : Catalogs) (N : ℕ) (store : List SensorCombination),
      UniqueKeys store → UniqueKeys (synthesize sc cat N store).store) ∧
    ∀ reqs : List (Catalogs × ℕ), UniqueKeys (runSynth sc reqs []) := by
  have hstep : ∀ (cat : Catalogs) (N : ℕ) (store : List SensorCombination),
      UniqueKeys store → UniqueKeys (synthesize sc cat N store).store :=
    fun cat N store h => synthLoop_unique sc cat.candidates N ⟨store, 0, 0⟩ h
  refine ⟨hstep, ?_⟩
  have general : ∀ (reqs : List (Catalogs × ℕ)) (st : List SensorCombination),
      UniqueKeys st → UniqueKeys (runSynth sc reqs st) := by
    intro reqs
    induction reqs with
    | nil => intro st h; simpa [runSynth] using h
    | cons r rest ih =>
      intro st h
      obtain ⟨cat, n⟩ := r
      exact ih _ (hstep cat n st h)
  exact fun reqs => general reqs [] List.Pairwise.nil

/-- Witness for C2: uniqueness of the store obtained from one concrete
synthesize call starting from the empty (trivially unique) store. -/
theorem combination_store_unique_keys_witness :
    UniqueKeys (synthesize sampleScore sampleCatalogs 10 []).store :=
  (combination_store_unique_keys sampleScore).1 sampleCatalogs 10 [] List.Pairwise.nil

/-- A quadruple enumerated from the catalogs has all four components in the
catalogs. -/
theorem mem_candidates (cat : Catalogs) (a : Analyte) (b : BioRecognitionLayer)
    (i : ImmobilizationLayer) (m : MemristiveLayer)
    (h : (a, b, i, m) ∈ cat.candidates) :
    a ∈ cat.analytes ∧ b ∈ cat.bres ∧ i ∈ cat.ims ∧ m ∈ cat.mems := by
  simp only [Catalogs.candidates, List.mem_flatMap, List.mem_map] at h
  obtain ⟨a', ha, b', hb, i', hi, m', hm, heq⟩ := h
  simp only [Prod.mk.injEq] at heq
  obtain ⟨rfl, rfl, rfl, rfl⟩ := heq
  exact ⟨ha, hb, hi, hm⟩

/-- The loop preserves the range-intersection invariant relative to any
component universe containing the enumerated candidates. -/
theorem synthLoop_rangeInv (sc : ScoreFn) (U : Catalogs) :
    ∀ (cs : List Candidate) (fuel : ℕ) (s : SynthState),
      (∀ a b i m, (a, b, i, m) ∈ cs →
        a ∈ U.analytes ∧ b ∈ U.bres ∧ i ∈ U.ims ∧ m ∈ U.mems) →
      RangeInv U s.store → RangeInv U (synthLoop sc cs fuel s).store := by
  intro cs
  induction cs with
  | nil => intro fuel s _ h; simpa [synthLoop] using h
  | cons cand rest ih =>
    intro fuel s hU h
    cases fuel with
    | zero => simpa [synthLoop] using h
    | succ f =>
      obtain ⟨a, b, i, m⟩ := cand
      have hUrest : ∀ a' b' i' m', (a', b', i', m') ∈ rest →
          a' ∈ U.analytes ∧ b' ∈ U.bres ∧ i' ∈ U.ims ∧ m' ∈ U.mems :=
        fun a' b' i' m' hm' => hU a' b' i' m' (List.mem_cons_of_mem _ hm')
      simp only [synthLoop]
      split
      · exact ih f _ hUrest h
      · split
        · rename_i hk hc
          apply ih f _ hUrest
          intro c hc'
          rcases List.mem_append.mp hc' with hold | hnew
          · exact h c hold
          · simp only [List.mem_singleton] at hnew
            subst hnew
            obtain ⟨hU1, hU2, hU3, hU4⟩ := hU a b i m (List.mem_cons_self _ _)
            simp only [isCompatible, Bool.and_eq_true] at hc
            exact ⟨a, hU1, b, hU2, i, hU3, m, hU4, rfl, rfl, rfl, rfl,
              hc.1.1.1, hc.1.1.2, hc.1.2, hc.2⟩
        · exact ih f _ hUrest h

/-- One synthesize call preserves the invariant when its catalogs sit
inside the universe. -/
theorem synthesize_rangeInv (sc : ScoreFn) (U cat : Catalogs) (N : ℕ)
    (store : List SensorCombination) (hsub : cat.Sub U)
    (h : RangeInv U store) : RangeInv U (synthesize sc cat N store).store :=
  synthLoop_rangeInv sc U cat.candidates N ⟨store, 0, 0⟩
    (fun a b i m hm =>
      have hmem := mem_candidates cat a b i m hm
      ⟨hsub.1 hmem.1, hsub.2.1 hmem.2.1, hsub.2.2.1 hmem.2.2.1, hsub.2.2.2 hmem.2.2.2⟩)
    h

/-- Claim C1: after every sequence of synthesize operations (starting from
the empty store, each over catalogs contained in the final catalogs `U`),
every persisted combination references four components of `U` whose pH,
temperature and dynamic-range intersections are non-empty and which violate
no categorical rule. -/
theorem range_intersection_invariant (sc : ScoreFn) (U : Catalogs)
    (reqs : List (Catalogs × ℕ)) (hgrow : ∀ r ∈ reqs, Catalogs.Sub r.1 U) :
    RangeInv U (runSynth sc reqs []) := by
  have general : ∀ (rs : List (Catalogs × ℕ)) (st : List SensorCombination),
      (∀ r ∈ rs, Catalogs.Sub r.1 U) → RangeInv U st →
      RangeInv U (runSynth sc rs st) := by
    intro rs
    induction rs with
    | nil => intro st _ h; simpa [runSynth] using h
    | cons r rest ih =>
      intro st hg h
      obtain ⟨cat, n⟩ := r
      exact ih _ (fun r' hr' => hg r' (List.mem_cons_of_mem _ hr'))
        (synthesize_rangeInv sc U cat n st (hg (cat, n) (List.mem_cons_self _ _)) h)
  exact general reqs [] hgrow fun c hc => absurd hc (List.not_mem_nil c)

/-- Witness for C1: one concrete synthesize request over the sample
catalogs, which trivially sit inside themselves. -/
theorem range_intersection_invariant_witness :
    RangeInv sampleCatalogs (runSynth sampleScore [(sampleCatalogs, 10)] []) :=
  range_intersection_invariant sampleScore sampleCatalogs [(sampleCatalogs, 10)] (by
    intro r hr
    simp only [List.mem_singleton] at hr
    subst hr
    exact ⟨fun _ h => h, fun _ h => h, fun _ h => h, fun _ h => h⟩)

/-- Claim C6: the synthesize endpoint defaults `max_combinations` to 10000,
accepts exactly `1 ≤ N ≤ 50000` (rejecting out-of-range values at the
boundary), and on success returns the service's `(checked, created)` pair
in the response body. -/
theorem synthesize_endpoint_contract (sc : ScoreFn) (cat : Catalogs)
    (store : List SensorCombination) :
    (synthesizeEndpoint sc cat store none =
      Except.ok ⟨true, (synthesize sc cat 10000 store).checked,
        (synthesize sc cat 10000 store).created,
        "✅ Checked " ++ toString (synthesize sc cat 10000 store).checked ++
          " possible combinations, created " ++
          toString (synthesize sc cat 10000 store).created ++ " new ones"⟩) ∧
    (∀ n : ℤ, 1 ≤ n → n ≤ 50000 →
      synthesizeEndpoint sc cat store (some n) =
        Except.ok ⟨true, (synthesize sc cat n.toNat store).checked,
          (synthesize sc cat n.toNat store).created,
          "✅ Checked " ++ toString (synthesize sc cat n.toNat store).checked ++
            " possible combinations, created " ++
            toString (synthesize sc cat n.toNat store).created ++ " new ones"⟩) ∧
    (∀ n : ℤ, n < 1 ∨ 50000 < n →
      synthesizeEndpoint sc cat store (some n) =
        Except.error ("max_combinations must satisfy 1 <= N <= 50000")) := by
  refine ⟨?_, ?_, ?_⟩
  · simp only [synthesizeEndpoint, Option.getD_none]
    rw [if_pos (by norm_num)]
    rfl
  · intro n h1 h2
    simp only [synthesizeEndpoint, Option.getD_some]
    rw [if_pos ⟨h1, h2⟩]
  · intro n h
    simp only [synthesizeEndpoint, Option.getD_some]
    rw [if_neg (by omega)]

/-- Witness for C6: the in-range case applied at `N = 5` over the sample
catalog state. -/
theorem synthesize_endpoint_contract_witness :
    (1 : ℤ) ≤ 5 ∧ (5 : ℤ) ≤ 50000 ∧
    synthesizeEndpoint sampleScore sampleCatalogs [] (some 5) =
      Except.ok ⟨true, (synthesize sampleScore sampleCatalogs (5 : ℤ).toNat []).checked,
        (synthesize sampleScore sampleCatalogs (5 : ℤ).toNat []).created,
        "✅ Checked " ++
          toString (synthesize sampleScore sampleCatalogs (5 : ℤ).toNat []).checked ++
          " possible combinations, created " ++
          toString (synthesize sampleScore sampleCatalogs (5 : ℤ).toNat []).created ++
          " new ones"⟩ :=
  ⟨by decide, by decide,
   (synthesize_endpoint_contract sampleScore sampleCatalogs []).2.1 5 (by decide) (by decide)⟩

/-- Claim C9: every analytics query over an empty CombinationStore yields
zeroed or empty results — zero combination count, zero mean score, an empty
top-N list, and zeroed per-kind comparative metrics — rather than an error. -/
theorem analytics_empty_store (cat : Catalogs) (limit : ℕ) :
    (getStatistics cat []).combination_count = 0 ∧
    (getStatistics cat []).mean_score = 0 ∧
    bestCombinations limit [] = [] ∧
    getComparativeAnalysis cat [] = ⟨0, 0, 0, 0⟩ := by
  refine ⟨rfl, ?_, ?_, ?_⟩
  · simp [getStatistics, meanQ]
  · simp [bestCombinations, sortCombs]
  · simp [getComparativeAnalysis, referencedAnalytes, referencedBres,
      referencedIms, referencedMems, meanQ]

end MemBiosensors
